import Mathlib

/-!
Verification of the quiz/conversation orchestrator of the Canvas LMS AI-tutor
backend (`backend/app/main.py` and the repositories and services it calls).

The embedding models the Python source at the level the checked claims need:

* Database tables (`conversations_rce`, `conversations`, `quiz_session`,
  `quiz_questions`) are lists of typed rows inside a `DB` record; every SQL
  statement of the repository layer becomes a pure function `DB → ...`.
  `ORDER BY timestamp DESC` is an insertion sort on the `timestamp` field,
  row `id`s and timestamps are drawn from monotone counters held in `DB`.
* Values coming out of `json.loads` are modelled by the inductive `JsonVal`
  (JSON numbers are modelled as integers; no claim depends on non-integer
  numbers).  `json.loads` itself, together with the code-fence-stripping
  regex applied just before it, is a black-box parameter
  `loads : String → Option JsonVal` (`none` = the cleaned reply text is not
  valid JSON, in which case the Python code raises).
* Other out-of-scope collaborators are parameters as well: the LLM reply is
  the `llmReply : String` argument, the sentence-transformer encoding is
  `encode`, the fasttext predictor behind `detect_language` is `predict`,
  pgvector's cosine-distance operator `<=>` is `dist`, Python's `str()` on an
  arbitrary JSON value is `pyStr`, and the summary text / embedding produced
  inside the background summarization task are `sumOf` / `embOf`.
* A Python exception escaping to the handler's outer `except Exception`
  block is an `Except` error value that carries the database state already
  committed at the raise point (`PyErr.httpException` for an explicitly
  raised `HTTPException`, `PyErr.other` for everything else).
-/

namespace CanvasTutor

/-! ## JSON values and Python value semantics -/

/-- Result of `json.loads`: a JSON value.  Numbers are modelled as integers. -/
inductive JsonVal where
  | null
  | bool (b : Bool)
  | num (n : Int)
  | str (s : String)
  | arr (xs : List JsonVal)
  | obj (fields : List (String × JsonVal))

/-- Python `dict.get(key)` on a parsed JSON object: `none` when the key is
absent (Python `None`). -/
def jget : List (String × JsonVal) → String → Option JsonVal
  | [], _ => none
  | (k, v) :: fs, key => if k = key then some v else jget fs key

/-- Python `x == True` for a value obtained via `dict.get` (`main.py` line 371:
`if wants_quiz == True`).  In Python `True == 1`, so the integer 1 also
compares equal to `True`. -/
def pyEqTrue : Option JsonVal → Bool
  | some (.bool b) => b
  | some (.num n) => n == 1
  | _ => false

/-- Python truthiness of a value obtained via `dict.get` (`main.py` line 331:
`if quiz_active:` on the parsed reply field). -/
def truthyJson : Option JsonVal → Bool
  | none => false
  | some .null => false
  | some (.bool b) => b
  | some (.num n) => n != 0
  | some (.str s) => !(s == "")
  | some (.arr xs) => !xs.isEmpty
  | some (.obj fs) => !fs.isEmpty

/-- Python truthiness of a nullable boolean column read back from the
database (`main.py` line 302: `if quiz_active:` on `user_record`). -/
def truthyOptBool : Option Bool → Bool
  | some b => b
  | none => false

/-- Python `x > 3` where `x` came from `dict.get('user_score')`: defined for
numbers (and booleans, which are integers in Python); any other value makes
the comparison raise `TypeError`, modelled as `none`. -/
def pyAsInt : Option JsonVal → Option Int
  | some (.num n) => some n
  | some (.bool b) => some (if b then 1 else 0)
  | _ => none

/-- Conversion of a raw JSON value handed to asyncpg for a nullable boolean
column: missing key / JSON null become SQL NULL, booleans pass through, and
any other value makes the insert raise, modelled as `none` (failure). -/
def dbBoolOfJson : Option JsonVal → Option (Option Bool)
  | none => some none
  | some .null => some none
  | some (.bool b) => some (some b)
  | some _ => none

/-- Characters stripped by Python `str.strip()` (the whitespace relevant to
the inputs of this code base). -/
def pyIsSpace (c : Char) : Bool :=
  c = ' ' || c = '\t' || c = '\n' || c = '\r'

/-- Python `str.lower()` for ASCII text, character by character. -/
def pyLowerChar (c : Char) : Char :=
  if 'A' ≤ c ∧ c ≤ 'Z' then Char.ofNat (c.toNat + 32) else c

/-- Python `str.lower()` on a string (ASCII model). -/
def pyLower (s : String) : String :=
  String.mk (s.data.map pyLowerChar)

/-- Python `str.strip()` on a string. -/
def pyStrip (s : String) : String :=
  String.mk (((s.data.dropWhile pyIsSpace).reverse.dropWhile pyIsSpace).reverse)

/-! ## Sorting (the model of SQL ORDER BY) -/

/-- Insert into a list sorted by the boolean relation `le`. -/
def insertLe {α : Type} (le : α → α → Bool) (x : α) : List α → List α
  | [] => [x]
  | y :: ys => if le x y then x :: y :: ys else y :: insertLe le x ys

/-- Insertion sort by the boolean relation `le`; models SQL `ORDER BY`
(ties are left in an arbitrary but fixed order, as in the database). -/
def sortByLe {α : Type} (le : α → α → Bool) : List α → List α
  | [] => []
  | x :: xs => insertLe le x (sortByLe le xs)

/-! ## Data model (spec section 3; `conversations_rce`, `quiz_session`,
`quiz_questions` tables) -/

/-- One row of `conversations_rce` (and of the legacy `conversations` table,
which has the same shape).  Mirrors the column list used by
`ConversationMemoryRawRepository_rce.create`. -/
structure ConvRow where
  id : Nat
  user_id : Option String
  course_id : Option String
  module_item_id : Option String
  message : String
  message_from : String
  session_id : Option String
  summary : Option String
  embedding : Option String
  evaluation : Option String
  quiz_session_id : Option Nat
  quiz_active : Option Bool
  current_language : Option String
  timestamp : Nat
deriving DecidableEq

/-- One row of `quiz_questions` (columns of
`QuizQuestionsRepository.create_question`). -/
structure QuizQuestionRow where
  id : Nat
  question_number : Int
  difficulty : String
  question_type : String
  question_text : String
  options : String
  expected_answer : String
  explanation : Option String
  quiz_session_id : Option Nat
deriving DecidableEq

/-- The database.  `quiz_sessions` keeps only the ids, since `quiz_session`
rows carry nothing but id and timestamps.  The counters model the sequences
behind `id` columns and the clock behind `CURRENT_TIMESTAMP` defaults; a
well-formed state keeps every stored timestamp below `clock`. -/
structure DB where
  conversations_rce : List ConvRow
  conversations : List ConvRow
  quiz_questions : List QuizQuestionRow
  quiz_sessions : List Nat
  nextConvId : Nat
  nextQuizSessionId : Nat
  nextQuestionId : Nat
  clock : Nat
deriving DecidableEq

/-- SQL equality `session_id = :session_id` between a row's nullable column
and a bound parameter: false whenever either side is NULL. -/
def matchesSid (rowSid param : Option String) : Bool :=
  param.isSome && (rowSid == param)

/-- Comparator for `ORDER BY timestamp DESC`. -/
def tsDesc (a b : ConvRow) : Bool :=
  b.timestamp ≤ a.timestamp

/-- Rows of a conversation table for a session, newest first
(the `WHERE session_id = :session_id ORDER BY timestamp DESC` idiom). -/
def rowsForSessionDesc (rows : List ConvRow) (sid : Option String) : List ConvRow :=
  sortByLe tsDesc (rows.filter (fun r => matchesSid r.session_id sid))

/-- Newest row of a conversation table for a session (`... LIMIT 1`). -/
def latest_turn (rows : List ConvRow) (sid : Option String) : Option ConvRow :=
  (rowsForSessionDesc rows sid).head?

/-! ## ConversationMemoryRawRepository_rce
(`backend/app/repository/conversation_rce.py`) -/

/-- Bound parameters of the INSERT in
`ConversationMemoryRawRepository_rce.create`. -/
structure ConvCreateParams where
  user_id : Option String
  course_id : Option String
  module_item_id : Option String
  message : String
  message_from : String
  session_id : Option String
  summary : Option String
  embedding : Option String
  evaluation : Option String
  quiz_session_id : Option Nat
  quiz_active : Option Bool
  current_language : Option String

namespace ConversationMemoryRawRepository_rce

/-- INSERT INTO conversations_rce ... RETURNING *; the id comes from the
table's sequence and the timestamp from its CURRENT_TIMESTAMP default. -/
def create (db : DB) (p : ConvCreateParams) : ConvRow × DB :=
  let row : ConvRow :=
    { id := db.nextConvId
      user_id := p.user_id
      course_id := p.course_id
      module_item_id := p.module_item_id
      message := p.message
      message_from := p.message_from
      session_id := p.session_id
      summary := p.summary
      embedding := p.embedding
      evaluation := p.evaluation
      quiz_session_id := p.quiz_session_id
      quiz_active := p.quiz_active
      current_language := p.current_language
      timestamp := db.clock }
  (row,
    { db with
        conversations_rce := db.conversations_rce ++ [row]
        nextConvId := db.nextConvId + 1
        clock := db.clock + 1 })

/-- SELECT * FROM conversations_rce WHERE session_id = :session_id
ORDER BY timestamp DESC LIMIT :limit OFFSET :offset.  The Python default is
limit 1, offset 0. -/
def get_by_session_id (db : DB) (sid : Option String) (limit offset : Nat) :
    List ConvRow :=
  ((rowsForSessionDesc db.conversations_rce sid).drop offset).take limit

/-- SELECT summary FROM conversations_rce WHERE session_id = :session_id AND
summary IS NOT NULL AND summary != '' ORDER BY timestamp DESC LIMIT 1. -/
def get_latest_summary (db : DB) (sid : Option String) : Option String :=
  let rows := db.conversations_rce.filter (fun r =>
    matchesSid r.session_id sid &&
      (match r.summary with
       | some s => !(s == "")
       | none => false))
  match (sortByLe tsDesc rows).head? with
  | some r => r.summary
  | none => none

/-- Distance of a row's stored embedding to the query embedding under the
pgvector cosine-distance operator `<=>` (the black-box `dist`); rows reaching
this function have a non-NULL embedding. -/
def distTo (dist : String → String → Rat) (emb : String) (r : ConvRow) : Rat :=
  match r.embedding with
  | some e => dist e emb
  | none => 0

/-- SELECT *, (embedding <=> :embedding) AS similarity_score FROM
conversations_rce WHERE session_id = :session_id AND embedding IS NOT NULL
ORDER BY embedding <=> :embedding LIMIT :limit.  The similarity_score column
is recomputable from the row, so the model returns the rows. -/
def find_similar_conversations (dist : String → String → Rat) (db : DB)
    (sid : Option String) (embedding : String) (limit : Nat) : List ConvRow :=
  let matching := db.conversations_rce.filter (fun r =>
    matchesSid r.session_id sid && r.embedding.isSome)
  (sortByLe (fun a b => distTo dist embedding a ≤ distTo dist embedding b)
    matching).take limit

/-- UPDATE conversations_rce SET evaluation, quiz_session_id, quiz_active
WHERE id = (SELECT id FROM conversations WHERE session_id = :session_id
ORDER BY timestamp DESC LIMIT 1).  Note: the subquery reads the legacy
`conversations` table, not `conversations_rce`, exactly as in the source;
when it finds no row the UPDATE's WHERE clause is `id = NULL` and nothing is
updated.  The Python `quiz_active` parameter defaults to False. -/
def update_user_evaluation_and_quiz_session_by_session_id (db : DB)
    (sid : Option String) (evaluation : String) (quiz_session_id : Option Nat)
    (quiz_active : Bool) : DB :=
  match latest_turn db.conversations sid with
  | none => db
  | some target =>
    { db with
        conversations_rce := db.conversations_rce.map (fun r =>
          if r.id = target.id then
            { r with
                evaluation := some evaluation
                quiz_session_id := quiz_session_id
                quiz_active := some quiz_active }
          else r) }

/-- UPDATE conversations_rce SET quiz_active = :quiz_active WHERE id =
(SELECT id FROM conversations_rce WHERE session_id = :session_id ORDER BY
timestamp DESC LIMIT 1). -/
def update_quiz_active_status (db : DB) (sid : Option String)
    (quiz_active : Bool) : DB :=
  match latest_turn db.conversations_rce sid with
  | none => db
  | some target =>
    { db with
        conversations_rce := db.conversations_rce.map (fun r =>
          if r.id = target.id then { r with quiz_active := some quiz_active }
          else r) }

/-- SELECT c.quiz_session_id FROM conversations_rce c WHERE c.session_id =
:session_id AND c.evaluation = 'passed' ORDER BY timestamp DESC LIMIT 1;
the Python code returns `row[0] if row else None`, so a NULL
quiz_session_id on the newest passed row and the no-row case both give
`none`. -/
def get_latest_quiz_session_id (db : DB) (sid : Option String) : Option Nat :=
  let passedRows := db.conversations_rce.filter (fun r =>
    matchesSid r.session_id sid && (r.evaluation == some "passed"))
  match (sortByLe tsDesc passedRows).head? with
  | some r => r.quiz_session_id
  | none => none

end ConversationMemoryRawRepository_rce

/-! ## QuizSessionRepository and QuizQuestionsRepository
(`backend/app/repository/quiz_session.py`, `quiz_questions.py`) -/

namespace QuizSessionRepository

/-- INSERT INTO quiz_session (created_at, updated_at) VALUES
(CURRENT_TIMESTAMP, CURRENT_TIMESTAMP) RETURNING *; only the fresh id is
observable downstream. -/
def create_quiz_session (db : DB) : Nat × DB :=
  (db.nextQuizSessionId,
    { db with
        quiz_sessions := db.quiz_sessions ++ [db.nextQuizSessionId]
        nextQuizSessionId := db.nextQuizSessionId + 1 })

end QuizSessionRepository

/-- Bound parameters of the INSERT in
`QuizQuestionsRepository.create_question`, with the column types of the
`quiz_questions` table (spec section 3). -/
structure QuizQuestionParams where
  question_number : Int
  difficulty : String
  question_type : String
  question_text : String
  options : String
  expected_answer : String
  explanation : Option String
  quiz_session_id : Option Nat

namespace QuizQuestionsRepository

/-- INSERT INTO quiz_questions (question_number, difficulty, question_type,
question_text, options, expected_answer, explanation, quiz_session_id)
VALUES (...) RETURNING *. -/
def create_question (db : DB) (p : QuizQuestionParams) : DB :=
  { db with
      quiz_questions := db.quiz_questions ++
        [{ id := db.nextQuestionId
           question_number := p.question_number
           difficulty := p.difficulty
           question_type := p.question_type
           question_text := p.question_text
           options := p.options
           expected_answer := p.expected_answer
           explanation := p.explanation
           quiz_session_id := p.quiz_session_id }]
      nextQuestionId := db.nextQuestionId + 1 }

/-- SELECT * FROM quiz_questions WHERE quiz_session_id = :session_id ORDER BY
question_number ASC.  The orchestrator also calls this with Python None (via
`get_difficulty_by_quiz_session_id`), and SQL `=` against NULL matches no
row, hence the `Option` parameter and the `isSome` guard. -/
def get_questions_by_session_id (db : DB) (quiz_session_id : Option Nat) :
    List QuizQuestionRow :=
  sortByLe (fun a b => a.question_number ≤ b.question_number)
    (db.quiz_questions.filter (fun q =>
      quiz_session_id.isSome && (q.quiz_session_id == quiz_session_id)))

end QuizQuestionsRepository

/-! ## Services (`backend/app/services/quiz_services.py`, `helpers.py`) -/

/-- Difficulty selection (`quiz_services.get_difficulty_by_quiz_session_id`):
no questions (no prior passed quiz) gives easy; a first question of
difficulty easy gives medium; anything else gives hard. -/
def get_difficulty_by_quiz_session_id (db : DB) (quiz_id : Option Nat) :
    String :=
  match QuizQuestionsRepository.get_questions_by_session_id db quiz_id with
  | [] => "easy"
  | q :: _ => if q.difficulty = "easy" then "medium" else "hard"

/-- Numeric rank of a difficulty label, for stating that difficulty never
goes down (any label other than easy and medium is at the top, since the
code maps every non-easy first question to hard). -/
def diffRank (d : String) : Nat :=
  if d = "easy" then 0 else if d = "medium" then 1 else 2

/-- Scan of the fasttext labels in `detect_language`: the first label that is
`__label__en` gives english, the first that is `__label__id` or
`__label__min` gives indonesian; otherwise no language. -/
def firstLabel : List (String × Rat) → Option String
  | [] => none
  | (label, _) :: rest =>
    if label = "__label__en" then some "english"
    else if label = "__label__id" ∨ label = "__label__min" then
      some "indonesian"
    else firstLabel rest

/-- Language detection (`helpers.detect_language`): the trimmed, lowercased
message is checked against the ignore set {hi, hello, yes} before the
fasttext model (the black-box `predict`, returning labels with
probabilities) is consulted. -/
def detect_language (predict : String → List (String × Rat)) (text : String) :
    Option String :=
  let cleaned := pyLower (pyStrip text)
  if cleaned = "hi" ∨ cleaned = "hello" ∨ cleaned = "yes" then none
  else firstLabel (predict text)

/-! ## The chat endpoint (`backend/app/main.py`, `POST /api/v1/chat`) -/

/-- The fields of `ChatRequest` the orchestrator's control flow reads.  The
remaining request fields (course_id, module_item_id, page_slug, titles,
transcription, ...) feed only log lines and the LLM prompt, which is
absorbed into the black-box `llmReply`.  `module_context_present` is the
Python truthiness of the `module_context` dict. -/
structure ChatRequest where
  message : String
  session_id : Option String
  page_content : Option String
  module_context_present : Bool

/-- Branch condition `if request.page_content and request.module_context:`
(Python truthiness: a non-empty string and a truthy dict). -/
def hasDbContent (req : ChatRequest) : Bool :=
  (match req.page_content with
   | some s => !(s == "")
   | none => false) && req.module_context_present

/-- Arguments of one scheduled `summary_creator.summerize` background task,
in the order of the `background_tasks.add_task` calls: user_id, query,
response, prior summary, session_id, evaluation, quiz_session_id,
quiz_active, current_language.  `response` and `quiz_active` are passed as
the raw values taken from the parsed LLM reply. -/
structure SummarizeTask where
  user_id : Option String
  query : String
  response : Option JsonVal
  prior_summary : Option String
  session_id : Option String
  evaluation : Option String
  quiz_session_id : Option Nat
  quiz_active : Option JsonVal
  current_language : Option String

/-- A Python exception reaching the handler's outer `except Exception`
block: either an explicitly raised `fastapi.HTTPException` (which is itself
an `Exception` subclass, so the outer block catches it too) or any other
error. -/
inductive PyErr where
  | httpException (status : Nat)
  | other

/-- What the HTTP caller observes from the chat endpoint: a normal reply
value, or an HTTP error status (which would require an exception to escape
the handler). -/
inductive ChatOutcome where
  | reply (answer : Option JsonVal)
  | httpError (status : Nat)

/-- Observable result of one chat request: the outcome sent to the caller,
the database state at the moment the response is returned, and the
background tasks scheduled to run after it. -/
structure HandlerRun where
  outcome : ChatOutcome
  db : DB
  tasks : List SummarizeTask

/-- One element of the LLM reply's `quiz` array, as consumed by the
question-insertion loop in `main.py`: `question_number`, `difficulty`,
`question_type`, `question_text`, `expected_answer` are accessed with
`[...]` (KeyError when absent) and must fit the integer/text columns of
`quiz_questions`; `options` and `explanation` are accessed with `.get`. -/
structure QuizItem where
  question_number : Int
  difficulty : String
  question_type : String
  question_text : String
  options : Option JsonVal
  expected_answer : String
  explanation : Option String

/-- Extraction of one quiz item from its JSON value; `none` models the
exception raised by a missing mandatory key or a value the database column
rejects. -/
def parseQuizItem : JsonVal → Option QuizItem
  | .obj fs =>
    match jget fs "question_number", jget fs "difficulty",
        jget fs "question_type", jget fs "question_text",
        jget fs "expected_answer" with
    | some (.num qn), some (.str d), some (.str qt), some (.str qx),
        some (.str ea) =>
      match jget fs "explanation" with
      | some (.str s) =>
        some ⟨qn, d, qt, qx, jget fs "options", ea, some s⟩
      | some .null => some ⟨qn, d, qt, qx, jget fs "options", ea, none⟩
      | none => some ⟨qn, d, qt, qx, jget fs "options", ea, none⟩
      | some _ => none
    | _, _, _, _, _ => none
  | _ => none

/-- Python `str(question_data.get('options'))` in the insertion loop:
`str(None)` is the literal string "None". -/
def pyStrOpt (pyStr : JsonVal → String) : Option JsonVal → String
  | none => "None"
  | some v => pyStr v

/-- INSERT parameters built for one quiz item in the loop of `main.py`. -/
def questionParamsOf (pyStr : JsonVal → String) (item : QuizItem)
    (quiz_session_id : Option Nat) : QuizQuestionParams :=
  { question_number := item.question_number
    difficulty := item.difficulty
    question_type := item.question_type
    question_text := item.question_text
    options := pyStrOpt pyStr item.options
    expected_answer := item.expected_answer
    explanation := item.explanation
    quiz_session_id := quiz_session_id }

/-- The question-insertion loop `for question_data in quiz_questions:`; on a
malformed item the raised exception aborts the loop, keeping the rows already
committed (each `create_question` commits separately). -/
def insertQuestions (pyStr : JsonVal → String) (db : DB)
    (quiz_session_id : Option Nat) : List JsonVal → Except DB DB
  | [] => .ok db
  | v :: vs =>
    match parseQuizItem v with
    | none => .error db
    | some item =>
      insertQuestions pyStr
        (QuizQuestionsRepository.create_question db
          (questionParamsOf pyStr item quiz_session_id))
        quiz_session_id vs

/-- Background-task argument tuple scheduled for an ongoing quiz turn
(`main.py` line 334): evaluation Progress, quiz_active stays true. -/
def quizProgressTask (req : ChatRequest) (ur : ConvRow)
    (summary cl : Option String) (answer : Option JsonVal) : SummarizeTask :=
  { user_id := none
    query := req.message
    response := answer
    prior_summary := summary
    session_id := ur.session_id
    evaluation := some "Progress"
    quiz_session_id := ur.quiz_session_id
    quiz_active := some (.bool true)
    current_language := cl }

/-- Background-task argument tuple scheduled when the quiz is passed
(`main.py` line 339). -/
def quizPassTask (req : ChatRequest) (ur : ConvRow)
    (summary cl : Option String) (answer : Option JsonVal) : SummarizeTask :=
  { user_id := none
    query := req.message
    response := answer
    prior_summary := summary
    session_id := ur.session_id
    evaluation := some "passed"
    quiz_session_id := ur.quiz_session_id
    quiz_active := some (.bool false)
    current_language := cl }

/-- Background-task argument tuple scheduled when the quiz is failed
(`main.py` line 343). -/
def quizFailTask (req : ChatRequest) (ur : ConvRow)
    (summary cl : Option String) (answer : Option JsonVal) : SummarizeTask :=
  { user_id := none
    query := req.message
    response := answer
    prior_summary := summary
    session_id := ur.session_id
    evaluation := some "failed"
    quiz_session_id := ur.quiz_session_id
    quiz_active := some (.bool false)
    current_language := cl }

/-- Background-task argument tuple scheduled at the end of the idle branch
(`main.py` line 398): no evaluation, the raw `wants_quiz` reply value as
quiz_active, and the new quiz session id when one was created. -/
def idleTask (req : ChatRequest) (summary cl : Option String)
    (answer wants_quiz : Option JsonVal) (qsid : Option Nat) :
    SummarizeTask :=
  { user_id := none
    query := req.message
    response := answer
    prior_summary := summary
    session_id := req.session_id
    evaluation := none
    quiz_session_id := qsid
    quiz_active := wants_quiz
    current_language := cl }

/-- Quiz-continuation branch of the chat handler (`main.py` lines 305-345):
the LLM reply is parsed; its `quiz_active` decides between an ongoing-quiz
turn and quiz completion, where `user_score > 3` picks passed (persisted only
through the scheduled background task) and otherwise failed (persisted
synchronously and additionally through the scheduled background task). -/
def quizActiveBranch (loads : String → Option JsonVal) (llmReply : String)
    (req : ChatRequest) (user_record : ConvRow) (summary : Option String)
    (current_language : Option String) (db : DB) :
    Except (PyErr × DB × List SummarizeTask)
      (Option JsonVal × DB × List SummarizeTask) :=
  match loads llmReply with
  | none => .error (.httpException 500, db, [])
  | some (.obj fs) =>
    let answer := jget fs "response"
    if truthyJson (jget fs "quiz_active") then
      .ok (answer, db,
        [quizProgressTask req user_record summary current_language answer])
    else
      match pyAsInt (jget fs "user_score") with
      | none => .error (.other, db, [])
      | some score =>
        if score > 3 then
          .ok (answer, db,
            [quizPassTask req user_record summary current_language answer])
        else
          let db2 :=
            ConversationMemoryRawRepository_rce.update_user_evaluation_and_quiz_session_by_session_id
              db user_record.session_id "failed" user_record.quiz_session_id
              false
          .ok (answer, db2,
            [quizFailTask req user_record summary current_language answer])
  | some _ => .error (.other, db, [])

/-- Idle branch of the chat handler (`main.py` lines 347-399): the LLM reply
is parsed; on `wants_quiz == True` a quiz session is created, the latest
turn's quiz_active flag is set, the evaluation update is attempted (with the
Python-default quiz_active False), and the reply's quiz array is persisted
question by question; in every case a summarization background task is
scheduled and the reply's answer returned. -/
def idleBranch (loads : String → Option JsonVal) (pyStr : JsonVal → String)
    (llmReply : String) (req : ChatRequest) (summary : Option String)
    (current_language : Option String) (db : DB) :
    Except (PyErr × DB × List SummarizeTask)
      (Option JsonVal × DB × List SummarizeTask) :=
  match loads llmReply with
  | none => .error (.httpException 500, db, [])
  | some (.obj fs) =>
    let answer := jget fs "answer"
    let wants_quiz := jget fs "wants_quiz"
    if pyEqTrue wants_quiz then
      let created := QuizSessionRepository.create_quiz_session db
      match jget fs "quiz" with
      | some (.arr items) =>
        let db3 :=
          ConversationMemoryRawRepository_rce.update_quiz_active_status
            created.2 req.session_id true
        let db4 :=
          ConversationMemoryRawRepository_rce.update_user_evaluation_and_quiz_session_by_session_id
            db3 req.session_id "Progress" (some created.1) false
        match insertQuestions pyStr db4 (some created.1) items with
        | .error dbe => .error (.other, dbe, [])
        | .ok db5 =>
          .ok (answer, db5,
            [idleTask req summary current_language answer wants_quiz
              (some created.1)])
      | _ => .error (.other, created.2, [])
    else
      .ok (answer, db,
        [idleTask req summary current_language answer wants_quiz none])
  | some _ => .error (.other, db, [])

/-- INSERT parameters of the user turn created for the first message of a
brand-new session (`main.py` lines 272-289): the message itself with a fresh
embedding, idle quiz state, and the detected language. -/
def firstTurnParams (predict : String → List (String × Rat))
    (encode : String → String) (req : ChatRequest) : ConvCreateParams :=
  { user_id := none
    course_id := none
    module_item_id := none
    message := req.message
    message_from := "user"
    session_id := req.session_id
    summary := none
    embedding := some (encode req.message)
    evaluation := none
    quiz_session_id := none
    quiz_active := some false
    current_language := detect_language predict req.message }

/-- Body of the chat endpoint inside its `try:` block.  With database
content present, the session's latest turn is read (or, for a brand-new
session, a user turn is inserted first, necessarily idle) and its
quiz_active flag selects the branch; without database content the reply is
parsed and its answer returned directly.  The reads feeding only the LLM
prompt (find_similar_conversations, format_conversations_for_chatbot,
get_latest_quiz_session_id, get_difficulty_by_quiz_session_id,
get_questions_by_session_id) do not change state and are absorbed into the
black-box `llmReply`. -/
def chatBody (loads : String → Option JsonVal)
    (predict : String → List (String × Rat)) (encode : String → String)
    (pyStr : JsonVal → String) (llmReply : String) (req : ChatRequest)
    (db : DB) :
    Except (PyErr × DB × List SummarizeTask)
      (Option JsonVal × DB × List SummarizeTask) :=
  let current_language := detect_language predict req.message
  if hasDbContent req then
    match ConversationMemoryRawRepository_rce.get_by_session_id db
        req.session_id 1 0 with
    | [] =>
      let created := ConversationMemoryRawRepository_rce.create db
        (firstTurnParams predict encode req)
      if truthyOptBool created.1.quiz_active then
        quizActiveBranch loads llmReply req created.1 none current_language
          created.2
      else
        idleBranch loads pyStr llmReply req none current_language created.2
    | user_record :: _ =>
      let summary := ConversationMemoryRawRepository_rce.get_latest_summary db
        req.session_id
      if truthyOptBool user_record.quiz_active then
        quizActiveBranch loads llmReply req user_record summary
          current_language db
      else
        idleBranch loads pyStr llmReply req summary current_language db
  else
    match loads llmReply with
    | none => .error (.httpException 500, db, [])
    | some (.obj fs) => .ok (jget fs "answer", db, [])
    | some _ => .error (.other, db, [])

/-- Fixed reply text of the handler's outer `except Exception` block. -/
def apologyText : String :=
  "sorry, I could not process your request at this time. Please try again later."

/-- The chat endpoint: the body runs inside `try:`, and the outer
`except Exception` turns every escaping exception (including the
`HTTPException` raised on a JSON parse failure) into the fixed apology
string returned as an ordinary reply. -/
def chat (loads : String → Option JsonVal)
    (predict : String → List (String × Rat)) (encode : String → String)
    (pyStr : JsonVal → String) (llmReply : String) (req : ChatRequest)
    (db : DB) : HandlerRun :=
  match chatBody loads predict encode pyStr llmReply req db with
  | .ok (answer, db1, tasks) => ⟨.reply answer, db1, tasks⟩
  | .error (_, db1, tasks) => ⟨.reply (some (.str apologyText)), db1, tasks⟩

/-! ## Background summarization
(`backend/app/services/summarize_conversation.py`) -/

/-- One run of `ConvoSummerizer.summerize`: a new AI-turn row is inserted
carrying the generated summary (`sumOf`), a fresh embedding (`embOf`) and the
evaluation / quiz_session_id / quiz_active values fixed when the task was
scheduled.  The whole task body is wrapped in `try ... except: return None`,
so a failing insert (a reply value the row types reject) leaves the database
unchanged. -/
def summerize (sumOf embOf : SummarizeTask → String) (db : DB)
    (t : SummarizeTask) : DB :=
  match t.response, dbBoolOfJson t.quiz_active with
  | some (.str msg), some qa =>
    (ConversationMemoryRawRepository_rce.create db
      { user_id := t.user_id
        course_id := none
        module_item_id := none
        message := msg
        message_from := "ai"
        session_id := t.session_id
        summary := some (sumOf t)
        embedding := some (embOf t)
        evaluation := t.evaluation
        quiz_session_id := t.quiz_session_id
        quiz_active := qa
        current_language := t.current_language }).2
  | _, _ => db

/-- Deferred execution of the scheduled background tasks, in order, after
the HTTP response has been sent. -/
def runTasks (sumOf embOf : SummarizeTask → String) (db : DB)
    (tasks : List SummarizeTask) : DB :=
  tasks.foldl (summerize sumOf embOf) db

/-- Database state carried by a handler-body result, whether the body
returned normally or raised: commits made before a raise persist. -/
def dbOf : Except (PyErr × DB × List SummarizeTask)
    (Option JsonVal × DB × List SummarizeTask) → DB
  | .ok (_, d, _) => d
  | .error (_, d, _) => d

/-- Well-typed parse of an entire quiz array, used to state when the
question-insertion loop runs to completion. -/
def parseItems : List JsonVal → Option (List QuizItem)
  | [] => some []
  | v :: vs =>
    match parseQuizItem v, parseItems vs with
    | some i, some is => some (i :: is)
    | _, _ => none

/-! ## Concrete fixtures for witnesses and counterexamples -/

/-- Empty database. -/
def dbEmpty : DB :=
  { conversations_rce := []
    conversations := []
    quiz_questions := []
    quiz_sessions := []
    nextConvId := 0
    nextQuizSessionId := 0
    nextQuestionId := 0
    clock := 0 }

/-- A stored user turn of session s in the idle state. -/
def rowIdle : ConvRow :=
  { id := 0
    user_id := none
    course_id := none
    module_item_id := none
    message := "hello there"
    message_from := "user"
    session_id := some "s"
    summary := none
    embedding := some "[0.1,0.2]"
    evaluation := none
    quiz_session_id := none
    quiz_active := some false
    current_language := some "english"
    timestamp := 0 }

/-- A stored user turn of session s with an active quiz (session 7). -/
def rowQuizActive : ConvRow :=
  { rowIdle with quiz_active := some true, quiz_session_id := some 7 }

/-- Database holding one idle turn of session s; the legacy `conversations`
table is empty, as it is never written by this flow. -/
def dbIdle : DB :=
  { dbEmpty with
      conversations_rce := [rowIdle]
      nextConvId := 1
      nextQuizSessionId := 7
      clock := 1 }

/-- Database holding one quiz-active turn of session s. -/
def dbQuizActive : DB :=
  { dbEmpty with
      conversations_rce := [rowQuizActive]
      nextConvId := 1
      nextQuizSessionId := 8
      clock := 1 }

/-- A stored turn of session s that passed quiz session 7. -/
def rowPassed : ConvRow :=
  { rowIdle with evaluation := some "passed", quiz_session_id := some 7 }

/-- Database holding one passed turn of session s. -/
def dbPassed : DB :=
  { dbEmpty with
      conversations_rce := [rowPassed]
      nextConvId := 1
      clock := 1 }

/-- Cosine-distance stand-in. -/
def distFix : String → String → Rat := fun _ _ => 0

/-- A stored quiz question for quiz session 7. -/
def qrow (n : Int) (d : String) : QuizQuestionRow :=
  { id := 0
    question_number := n
    difficulty := d
    question_type := "true_false"
    question_text := "Is water wet?"
    options := "None"
    expected_answer := "true"
    explanation := none
    quiz_session_id := some 7 }

/-- Database whose quiz session 7 starts with an easy question. -/
def dbEasyQuiz : DB := { dbEmpty with quiz_questions := [qrow 1 "easy"] }

/-- Database whose quiz session 7 starts with a medium question. -/
def dbMediumQuiz : DB := { dbEmpty with quiz_questions := [qrow 1 "medium"] }

/-- A chat request for session s carrying database content (the branch in
which the orchestrator runs). -/
def reqWidget (msg : String) : ChatRequest :=
  { message := msg
    session_id := some "s"
    page_content := some "page text"
    module_context_present := true }

/-- A chat request without database content (knowledge-base branch). -/
def reqPlain (msg : String) : ChatRequest :=
  { message := msg
    session_id := some "s"
    page_content := none
    module_context_present := false }

/-- Black-box stand-in for `json.loads` that fails on every reply text;
models a malformed (non-JSON) LLM reply. -/
def loadsNone : String → Option JsonVal := fun _ => none

/-- Fasttext stand-in labelling everything English with probability 1. -/
def predictFix : String → List (String × Rat) := fun _ => [("__label__en", 1)]

/-- Sentence-transformer stand-in. -/
def encodeFix : String → String := fun _ => "[0.5,0.5]"

/-- Python str() stand-in for option dictionaries. -/
def pyStrFix : JsonVal → String := fun _ => "opts"

/-- Summary-text stand-in for the background summarizer. -/
def sumOfFix : SummarizeTask → String := fun _ => "running summary"

/-- Embedding stand-in for the background summarizer. -/
def embOfFix : SummarizeTask → String := fun _ => "[0.3,0.3]"

/-- One well-formed quiz item of the LLM reply, JSON-encoded. -/
def quizItemJson (n : Int) : JsonVal :=
  .obj [("question_number", .num n), ("difficulty", .str "easy"),
    ("question_type", .str "true_false"), ("question_text", .str "Is water wet?"),
    ("expected_answer", .str "true")]

/-- Parsed LLM reply that starts a quiz with five well-formed questions. -/
def replyQuiz5 : JsonVal :=
  .obj [("answer", .str "Here is your quiz!"), ("wants_quiz", .bool true),
    ("quiz", .arr [quizItemJson 1, quizItemJson 2, quizItemJson 3,
      quizItemJson 4, quizItemJson 5])]

/-- The QuizItem obtained by parsing quizItemJson n. -/
def quizItemParsed (n : Int) : QuizItem :=
  { question_number := n
    difficulty := "easy"
    question_type := "true_false"
    question_text := "Is water wet?"
    options := none
    expected_answer := "true"
    explanation := none }

/-- Parsed LLM reply that starts a quiz but returns only one question,
numbered 3. -/
def replyQuiz1 : JsonVal :=
  .obj [("answer", .str "Here is your quiz!"), ("wants_quiz", .bool true),
    ("quiz", .arr [quizItemJson 3])]

/-- Parsed LLM reply that closes the quiz with a passing score. -/
def replyScore (score : Int) : JsonVal :=
  .obj [("response", .str "Quiz finished."), ("quiz_active", .bool false),
    ("user_score", .num score)]

/-- Stand-in for `json.loads` returning a fixed parsed value for the one
reply text the scenario uses. -/
def loadsFix (v : JsonVal) : String → Option JsonVal :=
  fun s => if s = "llm-reply" then some v else none

/-! # Theorems -/

/-! ## Sorting lemmas -/

theorem mem_insertLe {α : Type} (le : α → α → Bool) (x a : α) (l : List α) :
    a ∈ insertLe le x l ↔ a = x ∨ a ∈ l := by
  induction l with
  | nil => simp [insertLe]
  | cons y ys ih =>
    simp only [insertLe]
    split
    · simp
    · simp [ih]
      tauto

theorem mem_sortByLe {α : Type} (le : α → α → Bool) (a : α) (l : List α) :
    a ∈ sortByLe le l ↔ a ∈ l := by
  induction l with
  | nil => simp [sortByLe]
  | cons x xs ih => simp [sortByLe, mem_insertLe, ih]

theorem length_insertLe {α : Type} (le : α → α → Bool) (x : α) (l : List α) :
    (insertLe le x l).length = l.length + 1 := by
  induction l with
  | nil => simp [insertLe]
  | cons y ys ih =>
    simp only [insertLe]
    split
    · simp
    · simp [ih]

theorem length_sortByLe {α : Type} (le : α → α → Bool) (l : List α) :
    (sortByLe le l).length = l.length := by
  induction l with
  | nil => simp [sortByLe]
  | cons x xs ih => simp [sortByLe, length_insertLe, ih]

theorem pairwise_insertLe {α : Type} (le : α → α → Bool)
    (htotal : ∀ a b, le a b = true ∨ le b a = true)
    (htrans : ∀ a b c, le a b = true → le b c = true → le a c = true)
    (x : α) (l : List α)
    (h : l.Pairwise (fun a b => le a b = true)) :
    (insertLe le x l).Pairwise (fun a b => le a b = true) := by
  induction l with
  | nil => simp [insertLe]
  | cons y ys ih =>
    simp only [insertLe]
    rcases List.pairwise_cons.mp h with ⟨hy, hys⟩
    split
    · rename_i hxy
      refine List.pairwise_cons.mpr ⟨?_, h⟩
      intro b hb
      rw [List.mem_cons] at hb
      rcases hb with rfl | hb
      · exact hxy
      · exact htrans x y b hxy (hy b hb)
    · rename_i hxy
      refine List.pairwise_cons.mpr ⟨?_, ih hys⟩
      intro b hb
      rw [mem_insertLe] at hb
      rcases hb with hbx | hb
      · rw [hbx]
        rcases htotal x y with hc | hc
        · exact absurd hc (by simpa using hxy)
        · exact hc
      · exact hy b hb

theorem sorted_sortByLe {α : Type} (le : α → α → Bool)
    (htotal : ∀ a b, le a b = true ∨ le b a = true)
    (htrans : ∀ a b c, le a b = true → le b c = true → le a c = true)
    (l : List α) :
    (sortByLe le l).Pairwise (fun a b => le a b = true) := by
  induction l with
  | nil => simp [sortByLe]
  | cons x xs ih => exact pairwise_insertLe le htotal htrans x _ ih

theorem sortByLe_append_max {α : Type} (le : α → α → Bool) (x : α) (l : List α)
    (h : ∀ y ∈ l, le x y = true ∧ le y x = false) :
    ∃ rest, sortByLe le (l ++ [x]) = x :: rest := by
  induction l with
  | nil => exact ⟨[], rfl⟩
  | cons a l' ih =>
    rcases ih (fun y hy => h y (List.mem_cons_of_mem a hy)) with ⟨rest, hrest⟩
    refine ⟨insertLe le a rest, ?_⟩
    have h2 : le a x = false := (h a (List.mem_cons_self a l')).2
    simp [List.cons_append, sortByLe, hrest, insertLe, h2]

/-! ## Handler characterization lemmas -/

theorem chatBody_no_context (loads : String → Option JsonVal)
    (predict : String → List (String × Rat)) (encode : String → String)
    (pyStr : JsonVal → String) (llmReply : String) (req : ChatRequest)
    (db : DB) (h : hasDbContent req = false) :
    chatBody loads predict encode pyStr llmReply req db =
      match loads llmReply with
      | none => .error (.httpException 500, db, [])
      | some (.obj fs) => .ok (jget fs "answer", db, [])
      | some _ => .error (.other, db, []) := by
  unfold chatBody
  rw [h]
  rfl

theorem chatBody_fresh_session (loads : String → Option JsonVal)
    (predict : String → List (String × Rat)) (encode : String → String)
    (pyStr : JsonVal → String) (llmReply : String) (req : ChatRequest)
    (db : DB) (hdb : hasDbContent req = true)
    (hg : ConversationMemoryRawRepository_rce.get_by_session_id db
      req.session_id 1 0 = []) :
    chatBody loads predict encode pyStr llmReply req db =
      idleBranch loads pyStr llmReply req none
        (detect_language predict req.message)
        (ConversationMemoryRawRepository_rce.create db
          (firstTurnParams predict encode req)).2 := by
  unfold chatBody
  rw [hdb, hg]
  rfl

theorem chatBody_existing_session (loads : String → Option JsonVal)
    (predict : String → List (String × Rat)) (encode : String → String)
    (pyStr : JsonVal → String) (llmReply : String) (req : ChatRequest)
    (db : DB) (user_record : ConvRow) (rest : List ConvRow)
    (hdb : hasDbContent req = true)
    (hg : ConversationMemoryRawRepository_rce.get_by_session_id db
      req.session_id 1 0 = user_record :: rest) :
    chatBody loads predict encode pyStr llmReply req db =
      if truthyOptBool user_record.quiz_active then
        quizActiveBranch loads llmReply req user_record
          (ConversationMemoryRawRepository_rce.get_latest_summary db
            req.session_id)
          (detect_language predict req.message) db
      else
        idleBranch loads pyStr llmReply req
          (ConversationMemoryRawRepository_rce.get_latest_summary db
            req.session_id)
          (detect_language predict req.message) db := by
  unfold chatBody
  rw [hdb, hg]
  rfl

theorem quizActiveBranch_completion (loads : String → Option JsonVal)
    (llmReply : String) (req : ChatRequest) (ur : ConvRow)
    (s cl : Option String) (db : DB) (fs : List (String × JsonVal)) (u : Int)
    (hparse : loads llmReply = some (.obj fs))
    (hdone : jget fs "quiz_active" = some (.bool false))
    (hscore : jget fs "user_score" = some (.num u)) :
    quizActiveBranch loads llmReply req ur s cl db =
      if u > 3 then
        .ok (jget fs "response", db,
          [quizPassTask req ur s cl (jget fs "response")])
      else
        .ok (jget fs "response",
          ConversationMemoryRawRepository_rce.update_user_evaluation_and_quiz_session_by_session_id
            db ur.session_id "failed" ur.quiz_session_id false,
          [quizFailTask req ur s cl (jget fs "response")]) := by
  unfold quizActiveBranch
  rw [hparse]
  simp only [hdone, truthyJson, Bool.false_eq_true, if_false, hscore, pyAsInt]

theorem matchesSid_of_get_by_session_id (db : DB) (sid : Option String)
    (ur : ConvRow) (rest : List ConvRow)
    (h : ConversationMemoryRawRepository_rce.get_by_session_id db sid 1 0 =
      ur :: rest) :
    matchesSid ur.session_id sid = true := by
  have hm : ur ∈ ConversationMemoryRawRepository_rce.get_by_session_id db sid
      1 0 := by
    rw [h]
    exact List.mem_cons_self _ _
  unfold ConversationMemoryRawRepository_rce.get_by_session_id at hm
  have h2 := List.mem_of_mem_take hm
  rw [List.drop_zero] at h2
  unfold rowsForSessionDesc at h2
  rw [mem_sortByLe] at h2
  exact (List.mem_filter.mp h2).2

theorem update_ueq_clock (db : DB) (sid : Option String) (e : String)
    (q : Option Nat) (a : Bool) :
    (ConversationMemoryRawRepository_rce.update_user_evaluation_and_quiz_session_by_session_id
      db sid e q a).clock = db.clock := by
  unfold ConversationMemoryRawRepository_rce.update_user_evaluation_and_quiz_session_by_session_id
  cases latest_turn db.conversations sid <;> rfl

theorem update_ueq_rows_from (db : DB) (sid : Option String) (e : String)
    (q : Option Nat) (a : Bool) :
    ∀ y ∈ (ConversationMemoryRawRepository_rce.update_user_evaluation_and_quiz_session_by_session_id
        db sid e q a).conversations_rce,
      ∃ x ∈ db.conversations_rce, y.timestamp = x.timestamp ∧
        y.session_id = x.session_id := by
  intro y hy
  unfold ConversationMemoryRawRepository_rce.update_user_evaluation_and_quiz_session_by_session_id
    at hy
  cases hl : latest_turn db.conversations sid with
  | none =>
    rw [hl] at hy
    exact ⟨y, hy, rfl, rfl⟩
  | some t =>
    rw [hl] at hy
    have hy2 : y ∈ db.conversations_rce.map (fun r =>
        if r.id = t.id then
          { r with
              evaluation := some e
              quiz_session_id := q
              quiz_active := some a }
        else r) := hy
    rcases List.mem_map.mp hy2 with ⟨x, hx, hxy⟩
    refine ⟨x, hx, ?_, ?_⟩ <;>
      · rw [← hxy]
        by_cases hid : x.id = t.id
        · rw [if_pos hid]
        · rw [if_neg hid]

theorem update_ueq_rows_to (db : DB) (sid : Option String) (e : String)
    (q : Option Nat) (a : Bool) (x : ConvRow)
    (hx : x ∈ db.conversations_rce) :
    ∃ y ∈ (ConversationMemoryRawRepository_rce.update_user_evaluation_and_quiz_session_by_session_id
        db sid e q a).conversations_rce,
      y.message = x.message ∧ y.message_from = x.message_from ∧
        y.current_language = x.current_language := by
  unfold ConversationMemoryRawRepository_rce.update_user_evaluation_and_quiz_session_by_session_id
  cases hl : latest_turn db.conversations sid with
  | none => exact ⟨x, hx, rfl, rfl, rfl⟩
  | some t =>
    refine ⟨if x.id = t.id then
        { x with
            evaluation := some e
            quiz_session_id := q
            quiz_active := some a }
      else x, List.mem_map_of_mem _ hx, ?_, ?_, ?_⟩ <;>
      · by_cases hid : x.id = t.id
        · rw [if_pos hid]
        · rw [if_neg hid]

theorem update_qas_rows_to (db : DB) (sid : Option String) (a : Bool)
    (x : ConvRow) (hx : x ∈ db.conversations_rce) :
    ∃ y ∈ (ConversationMemoryRawRepository_rce.update_quiz_active_status db
        sid a).conversations_rce,
      y.message = x.message ∧ y.message_from = x.message_from ∧
        y.current_language = x.current_language := by
  unfold ConversationMemoryRawRepository_rce.update_quiz_active_status
  cases hl : latest_turn db.conversations_rce sid with
  | none => exact ⟨x, hx, rfl, rfl, rfl⟩
  | some t =>
    refine ⟨if x.id = t.id then { x with quiz_active := some a } else x,
      List.mem_map_of_mem _ hx, ?_, ?_, ?_⟩ <;>
      · by_cases hid : x.id = t.id
        · rw [if_pos hid]
        · rw [if_neg hid]

theorem latest_turn_append (rows : List ConvRow) (sid : Option String)
    (nr : ConvRow) (hm : matchesSid nr.session_id sid = true)
    (hts : ∀ y ∈ rows, y.timestamp < nr.timestamp) :
    latest_turn (rows ++ [nr]) sid = some nr := by
  unfold latest_turn rowsForSessionDesc
  rw [List.filter_append]
  have hf : List.filter (fun r => matchesSid r.session_id sid) [nr] = [nr] := by
    simp [hm]
  rw [hf]
  have hts2 : ∀ y ∈ List.filter (fun r => matchesSid r.session_id sid) rows,
      tsDesc nr y = true ∧ tsDesc y nr = false := by
    intro y hy
    have hy2 := (List.mem_filter.mp hy).1
    have h3 := hts y hy2
    constructor
    · simp only [tsDesc]
      exact decide_eq_true (le_of_lt h3)
    · simp only [tsDesc]
      exact decide_eq_false (not_le.mpr h3)
  obtain ⟨restL, hsort⟩ := sortByLe_append_max tsDesc nr _ hts2
  rw [hsort]
  rfl

theorem latest_turn_after_create (db : DB) (p : ConvCreateParams)
    (sid : Option String) (hm : matchesSid p.session_id sid = true)
    (hts : ∀ y ∈ db.conversations_rce, y.timestamp < db.clock) :
    ∃ nr,
      latest_turn ((ConversationMemoryRawRepository_rce.create db
        p).2.conversations_rce) sid = some nr ∧
      nr.evaluation = p.evaluation ∧ nr.quiz_active = p.quiz_active ∧
        nr.session_id = p.session_id := by
  refine ⟨(ConversationMemoryRawRepository_rce.create db p).1, ?_, rfl, rfl,
    rfl⟩
  have hsplit : (ConversationMemoryRawRepository_rce.create db
      p).2.conversations_rce =
      db.conversations_rce ++
        [(ConversationMemoryRawRepository_rce.create db p).1] := rfl
  rw [hsplit]
  exact latest_turn_append db.conversations_rce sid _ hm hts

theorem summerize_insert (sumOf embOf : SummarizeTask → String) (db : DB)
    (t : SummarizeTask) (msg : String) (qa : Option Bool)
    (hr : t.response = some (.str msg))
    (hb : dbBoolOfJson t.quiz_active = some qa) :
    summerize sumOf embOf db t =
      (ConversationMemoryRawRepository_rce.create db
        { user_id := t.user_id
          course_id := none
          module_item_id := none
          message := msg
          message_from := "ai"
          session_id := t.session_id
          summary := some (sumOf t)
          embedding := some (embOf t)
          evaluation := t.evaluation
          quiz_session_id := t.quiz_session_id
          quiz_active := qa
          current_language := t.current_language }).2 := by
  unfold summerize
  rw [hr, hb]

/-! ## Claim C5: apology on internal exceptions -/

/-- Claim C5: on every chat request during which an internal exception is
raised (any error value escaping the body), the endpoint returns the fixed
apology string as an ordinary reply instead of raising or returning a
structured error. -/
theorem c5_apology_on_exception (loads : String → Option JsonVal)
    (predict : String → List (String × Rat)) (encode : String → String)
    (pyStr : JsonVal → String) (llmReply : String) (req : ChatRequest)
    (db : DB) (e : PyErr) (db1 : DB) (tasks : List SummarizeTask)
    (h : chatBody loads predict encode pyStr llmReply req db =
      .error (e, db1, tasks)) :
    (chat loads predict encode pyStr llmReply req db).outcome =
      .reply (some (.str apologyText)) := by
  unfold chat
  rw [h]

/-- Witness for C5: a malformed reply on the idle session makes the body
raise, and the endpoint answers with the apology string. -/
theorem c5_witness :
    (chat loadsNone predictFix encodeFix pyStrFix "bad" (reqWidget "what?")
      dbIdle).outcome = .reply (some (.str apologyText)) :=
  c5_apology_on_exception loadsNone predictFix encodeFix pyStrFix "bad"
    (reqWidget "what?") dbIdle (.httpException 500) dbIdle [] rfl

/-! ## Claim C4: JSON parse failures -/

/-- Claim C4 is false on the code: at this concrete request with database
content and a non-JSON LLM reply, the endpoint returns the apology string as
an ordinary reply, and the caller does not receive an HTTP 500. -/
theorem c4_counterexample :
    (chat loadsNone predictFix encodeFix pyStrFix "not json"
      (reqWidget "what?") dbIdle).outcome =
        .reply (some (.str apologyText)) ∧
    (chat loadsNone predictFix encodeFix pyStrFix "not json"
      (reqWidget "what?") dbIdle).outcome ≠ .httpError 500 := by
  constructor
  · rfl
  · intro h
    rw [show (chat loadsNone predictFix encodeFix pyStrFix "not json"
      (reqWidget "what?") dbIdle).outcome = .reply (some (.str apologyText))
      from rfl] at h
    exact ChatOutcome.noConfusion h

/-- Claim C4 (amended): when the cleaned LLM reply text is not valid JSON,
the handler body raises HTTPException(500) at the parse site, but the
endpoint's outer except block converts it into the fixed apology reply, so
the caller receives the apology string instead of an HTTP 500. -/
theorem c4_parse_failure_apology (loads : String → Option JsonVal)
    (predict : String → List (String × Rat)) (encode : String → String)
    (pyStr : JsonVal → String) (llmReply : String) (req : ChatRequest)
    (db : DB) (h : loads llmReply = none) :
    (∃ db1 tasks, chatBody loads predict encode pyStr llmReply req db =
      .error (.httpException 500, db1, tasks)) ∧
    (chat loads predict encode pyStr llmReply req db).outcome =
      .reply (some (.str apologyText)) := by
  have hq : ∀ ur s cl d, quizActiveBranch loads llmReply req ur s cl d =
      .error (.httpException 500, d, []) := by
    intro ur s cl d
    unfold quizActiveBranch
    rw [h]
  have hi : ∀ s cl d, idleBranch loads pyStr llmReply req s cl d =
      .error (.httpException 500, d, []) := by
    intro s cl d
    unfold idleBranch
    rw [h]
  have hbody : ∃ db1 tasks,
      chatBody loads predict encode pyStr llmReply req db =
        .error (.httpException 500, db1, tasks) := by
    by_cases hdb : hasDbContent req = true
    · cases hg : ConversationMemoryRawRepository_rce.get_by_session_id db
          req.session_id 1 0 with
      | nil =>
        rw [chatBody_fresh_session loads predict encode pyStr llmReply req db
          hdb hg, hi]
        exact ⟨_, _, rfl⟩
      | cons ur rest =>
        rw [chatBody_existing_session loads predict encode pyStr llmReply req
          db ur rest hdb hg]
        by_cases hqa : truthyOptBool ur.quiz_active = true
        · rw [if_pos hqa, hq]
          exact ⟨_, _, rfl⟩
        · rw [if_neg hqa, hi]
          exact ⟨_, _, rfl⟩
    · rw [chatBody_no_context loads predict encode pyStr llmReply req db
        (Bool.not_eq_true _ ▸ eq_false_of_ne_true hdb), h]
      exact ⟨_, _, rfl⟩
  rcases hbody with ⟨db1, tasks, hb⟩
  refine ⟨⟨db1, tasks, hb⟩, ?_⟩
  unfold chat
  rw [hb]

/-- Witness for C4 (amended) at a concrete malformed reply on the idle
session. -/
theorem c4_witness :
    (∃ db1 tasks, chatBody loadsNone predictFix encodeFix pyStrFix "oops"
      (reqWidget "hm?") dbIdle = .error (.httpException 500, db1, tasks)) ∧
    (chat loadsNone predictFix encodeFix pyStrFix "oops" (reqWidget "hm?")
      dbIdle).outcome = .reply (some (.str apologyText)) :=
  c4_parse_failure_apology loadsNone predictFix encodeFix pyStrFix "oops"
    (reqWidget "hm?") dbIdle rfl

/-! ## Claim C3: timing of quiz-completion persistence (code bug) -/

/-- Claim C3 is contradicted by the code at this concrete quiz-completion
request (quiz-active session s, reply with quiz_active false and
user_score 2, empty legacy conversations table): the failed path does await
an evaluation update before returning, but that update's subquery reads the
legacy `conversations` table and matches no row, so the database state at
handler return is unchanged and no stored turn carries failed; the failed
outcome reaches conversations_rce only through the deferred summarization
insert carried by the scheduled task, exactly like the passed outcome. -/
theorem c3_failed_not_synchronous :
    (chat (loadsFix (replyScore 2)) predictFix encodeFix pyStrFix "llm-reply"
      (reqWidget "my answer") dbQuizActive).db = dbQuizActive ∧
    (∀ r ∈ dbQuizActive.conversations_rce, r.evaluation ≠ some "failed") ∧
    (chat (loadsFix (replyScore 2)) predictFix encodeFix pyStrFix "llm-reply"
      (reqWidget "my answer") dbQuizActive).tasks.map (fun t => t.evaluation)
      = [some "failed"] ∧
    (latest_turn (runTasks sumOfFix embOfFix
      (chat (loadsFix (replyScore 2)) predictFix encodeFix pyStrFix
        "llm-reply" (reqWidget "my answer") dbQuizActive).db
      (chat (loadsFix (replyScore 2)) predictFix encodeFix pyStrFix
        "llm-reply" (reqWidget "my answer")
        dbQuizActive).tasks).conversations_rce (some "s")).map
      (fun r => (r.evaluation, r.quiz_active)) =
      some (some "failed", some false) :=
  ⟨rfl, by decide, rfl, rfl⟩

/-! ## Claim C2: quiz completion outcome after the deferred work -/

theorem runTasks_single (sumOf embOf : SummarizeTask → String) (db : DB)
    (t : SummarizeTask) (msg : String) (qa : Option Bool)
    (hr : t.response = some (.str msg))
    (hb : dbBoolOfJson t.quiz_active = some qa) :
    runTasks sumOf embOf db [t] =
      (ConversationMemoryRawRepository_rce.create db
        { user_id := t.user_id
          course_id := none
          module_item_id := none
          message := msg
          message_from := "ai"
          session_id := t.session_id
          summary := some (sumOf t)
          embedding := some (embOf t)
          evaluation := t.evaluation
          quiz_session_id := t.quiz_session_id
          quiz_active := qa
          current_language := t.current_language }).2 :=
  summerize_insert sumOf embOf db t msg qa hr hb

theorem latest_turn_after_task (sumOf embOf : SummarizeTask → String)
    (db : DB) (t : SummarizeTask) (sid : Option String) (msg : String)
    (qa : Option Bool) (hr : t.response = some (.str msg))
    (hb : dbBoolOfJson t.quiz_active = some qa)
    (hm : matchesSid t.session_id sid = true)
    (hts : ∀ y ∈ db.conversations_rce, y.timestamp < db.clock) :
    ∃ nr,
      latest_turn ((runTasks sumOf embOf db [t]).conversations_rce) sid =
        some nr ∧
      nr.evaluation = t.evaluation ∧ nr.quiz_active = qa ∧
        nr.session_id = t.session_id := by
  rw [runTasks_single sumOf embOf db t msg qa hr hb]
  exact latest_turn_after_create db
    { user_id := t.user_id
      course_id := none
      module_item_id := none
      message := msg
      message_from := "ai"
      session_id := t.session_id
      summary := some (sumOf t)
      embedding := some (embOf t)
      evaluation := t.evaluation
      quiz_session_id := t.quiz_session_id
      quiz_active := qa
      current_language := t.current_language } sid hm hts

/-- Claim C2: for a chat request in the quiz-active state whose parsed LLM
reply has quiz_active false, a numeric user_score and a string response,
after the handler and its scheduled background work have run, the session's
newest conversations_rce row carries evaluation passed when user_score is
strictly greater than 3 and failed otherwise, and quiz_active false in both
cases. -/
theorem c2_quiz_completion (loads : String → Option JsonVal)
    (predict : String → List (String × Rat)) (encode : String → String)
    (pyStr : JsonVal → String) (sumOf embOf : SummarizeTask → String)
    (llmReply : String) (req : ChatRequest) (db : DB) (user_record : ConvRow)
    (rest : List ConvRow) (fs : List (String × JsonVal)) (u : Int)
    (ans : String)
    (hdb : hasDbContent req = true)
    (hg : ConversationMemoryRawRepository_rce.get_by_session_id db
      req.session_id 1 0 = user_record :: rest)
    (hqa : truthyOptBool user_record.quiz_active = true)
    (hparse : loads llmReply = some (.obj fs))
    (hdone : jget fs "quiz_active" = some (.bool false))
    (hscore : jget fs "user_score" = some (.num u))
    (hresp : jget fs "response" = some (.str ans))
    (hwf : ∀ r ∈ db.conversations_rce, r.timestamp < db.clock) :
    ∃ nr,
      latest_turn (runTasks sumOf embOf
        (chat loads predict encode pyStr llmReply req db).db
        (chat loads predict encode pyStr llmReply req
          db).tasks).conversations_rce req.session_id = some nr ∧
      nr.evaluation = some (if 3 < u then "passed" else "failed") ∧
      nr.quiz_active = some false := by
  have hm := matchesSid_of_get_by_session_id db req.session_id user_record
    rest hg
  have hchar := chatBody_existing_session loads predict encode pyStr llmReply
    req db user_record rest hdb hg
  rw [if_pos hqa] at hchar
  rw [quizActiveBranch_completion loads llmReply req user_record _ _ db fs u
    hparse hdone hscore] at hchar
  by_cases hu : u > 3
  · rw [if_pos hu] at hchar
    have hcdb : (chat loads predict encode pyStr llmReply req db).db = db :=
      by
      unfold chat
      rw [hchar]
    have hct : (chat loads predict encode pyStr llmReply req db).tasks =
        [quizPassTask req user_record
          (ConversationMemoryRawRepository_rce.get_latest_summary db
            req.session_id)
          (detect_language predict req.message) (jget fs "response")] := by
      unfold chat
      rw [hchar]
    rw [hcdb, hct]
    obtain ⟨nr, hlt, he, hq, _⟩ := latest_turn_after_task sumOf embOf db
      (quizPassTask req user_record
        (ConversationMemoryRawRepository_rce.get_latest_summary db
          req.session_id)
        (detect_language predict req.message) (jget fs "response"))
      req.session_id ans (some false) hresp rfl hm hwf
    rw [if_pos hu]
    exact ⟨nr, hlt, he, hq⟩
  · rw [if_neg hu] at hchar
    have hcdb : (chat loads predict encode pyStr llmReply req db).db =
        ConversationMemoryRawRepository_rce.update_user_evaluation_and_quiz_session_by_session_id
          db user_record.session_id "failed" user_record.quiz_session_id
          false := by
      unfold chat
      rw [hchar]
    have hct : (chat loads predict encode pyStr llmReply req db).tasks =
        [quizFailTask req user_record
          (ConversationMemoryRawRepository_rce.get_latest_summary db
            req.session_id)
          (detect_language predict req.message) (jget fs "response")] := by
      unfold chat
      rw [hchar]
    rw [hcdb, hct]
    have hwf2 : ∀ r ∈
        (ConversationMemoryRawRepository_rce.update_user_evaluation_and_quiz_session_by_session_id
          db user_record.session_id "failed" user_record.quiz_session_id
          false).conversations_rce,
        r.timestamp <
          (ConversationMemoryRawRepository_rce.update_user_evaluation_and_quiz_session_by_session_id
            db user_record.session_id "failed" user_record.quiz_session_id
            false).clock := by
      intro r hr
      obtain ⟨x, hx, hts, _⟩ := update_ueq_rows_from db user_record.session_id
        "failed" user_record.quiz_session_id false r hr
      rw [hts, update_ueq_clock]
      exact hwf x hx
    obtain ⟨nr, hlt, he, hq, _⟩ := latest_turn_after_task sumOf embOf
      (ConversationMemoryRawRepository_rce.update_user_evaluation_and_quiz_session_by_session_id
        db user_record.session_id "failed" user_record.quiz_session_id false)
      (quizFailTask req user_record
        (ConversationMemoryRawRepository_rce.get_latest_summary db
          req.session_id)
        (detect_language predict req.message) (jget fs "response"))
      req.session_id ans (some false) hresp rfl hm hwf2
    rw [if_neg hu]
    exact ⟨nr, hlt, he, hq⟩

/-- Witness for C2 at the quiz-active session with user_score 4: after the
background task, the newest row of session s is passed with quiz_active
false. -/
theorem c2_witness :
    ∃ nr,
      latest_turn (runTasks sumOfFix embOfFix
        (chat (loadsFix (replyScore 4)) predictFix encodeFix pyStrFix
          "llm-reply" (reqWidget "my answer") dbQuizActive).db
        (chat (loadsFix (replyScore 4)) predictFix encodeFix pyStrFix
          "llm-reply" (reqWidget "my answer")
          dbQuizActive).tasks).conversations_rce (some "s") = some nr ∧
      nr.evaluation = some (if 3 < (4 : Int) then "passed" else "failed") ∧
      nr.quiz_active = some false :=
  c2_quiz_completion (loadsFix (replyScore 4)) predictFix encodeFix pyStrFix
    sumOfFix embOfFix "llm-reply" (reqWidget "my answer") dbQuizActive
    rowQuizActive [] [("response", .str "Quiz finished."),
      ("quiz_active", .bool false), ("user_score", .num 4)] 4
    "Quiz finished." rfl rfl rfl rfl rfl rfl rfl
    (by
      intro r hr
      simp only [dbQuizActive, dbEmpty] at hr
      rw [List.mem_singleton] at hr
      rw [hr]
      decide)

/-! ## Claim C6: difficulty selection -/

theorem diffRank_le_two (d : String) : diffRank d ≤ 2 := by
  unfold diffRank
  split
  · norm_num
  · split <;> norm_num

/-- Claim C6: for every quiz_session_id, get_difficulty_by_quiz_session_id
returns easy when no questions exist for that id, medium when the first
question's difficulty is easy, and hard in every other case; the returned
difficulty never ranks below the first question's difficulty (no downgrade
transition). -/
theorem c6_difficulty_selection (db : DB) (quiz_id : Option Nat) :
    (QuizQuestionsRepository.get_questions_by_session_id db quiz_id = [] →
      get_difficulty_by_quiz_session_id db quiz_id = "easy") ∧
    (∀ q t,
      QuizQuestionsRepository.get_questions_by_session_id db quiz_id = q :: t →
      (q.difficulty = "easy" →
        get_difficulty_by_quiz_session_id db quiz_id = "medium") ∧
      (q.difficulty ≠ "easy" →
        get_difficulty_by_quiz_session_id db quiz_id = "hard") ∧
      diffRank q.difficulty ≤
        diffRank (get_difficulty_by_quiz_session_id db quiz_id)) := by
  constructor
  · intro h
    unfold get_difficulty_by_quiz_session_id
    rw [h]
  · intro q t h
    have hres : get_difficulty_by_quiz_session_id db quiz_id =
        if q.difficulty = "easy" then "medium" else "hard" := by
      unfold get_difficulty_by_quiz_session_id
      rw [h]
    refine ⟨fun he => by rw [hres, if_pos he],
      fun he => by rw [hres, if_neg he], ?_⟩
    rw [hres]
    by_cases he : q.difficulty = "easy"
    · rw [if_pos he, he]
      norm_num [diffRank]
    · rw [if_neg he]
      calc diffRank q.difficulty ≤ 2 := diffRank_le_two _
        _ = diffRank "hard" := rfl

/-- Witness for C6 at concrete databases: no questions for session 7 gives
easy, an easy first question gives medium, a medium first question gives
hard. -/
theorem c6_witness :
    get_difficulty_by_quiz_session_id dbEmpty (some 7) = "easy" ∧
    get_difficulty_by_quiz_session_id dbEasyQuiz (some 7) = "medium" ∧
    get_difficulty_by_quiz_session_id dbMediumQuiz (some 7) = "hard" :=
  ⟨(c6_difficulty_selection dbEmpty (some 7)).1 rfl,
    ((c6_difficulty_selection dbEasyQuiz (some 7)).2 (qrow 1 "easy") [] rfl).1
      rfl,
    (((c6_difficulty_selection dbMediumQuiz (some 7)).2 (qrow 1 "medium") []
      rfl).2).1 (by decide)⟩

/-! ## Claim C7: questions persisted per quiz session -/

theorem update_ueq_quiz_questions (db : DB) (sid : Option String) (e : String)
    (q : Option Nat) (a : Bool) :
    (ConversationMemoryRawRepository_rce.update_user_evaluation_and_quiz_session_by_session_id
      db sid e q a).quiz_questions = db.quiz_questions := by
  unfold ConversationMemoryRawRepository_rce.update_user_evaluation_and_quiz_session_by_session_id
  cases latest_turn db.conversations sid <;> rfl

theorem update_qas_quiz_questions (db : DB) (sid : Option String) (a : Bool) :
    (ConversationMemoryRawRepository_rce.update_quiz_active_status db sid
      a).quiz_questions = db.quiz_questions := by
  unfold ConversationMemoryRawRepository_rce.update_quiz_active_status
  cases latest_turn db.conversations_rce sid <;> rfl

theorem insertQuestions_ok (pyStr : JsonVal → String) (qsid : Option Nat) :
    ∀ (items : List JsonVal) (db : DB) (qitems : List QuizItem),
      parseItems items = some qitems →
      ∃ db2 newRows, insertQuestions pyStr db qsid items = .ok db2 ∧
        db2.quiz_questions = db.quiz_questions ++ newRows ∧
        newRows.map (fun q => q.question_number) =
          qitems.map (fun i => i.question_number) ∧
        ∀ q ∈ newRows, q.quiz_session_id = qsid := by
  intro items
  induction items with
  | nil =>
    intro db qitems h
    have hq : qitems = [] := by
      unfold parseItems at h
      exact (Option.some_inj.mp h).symm
    subst hq
    exact ⟨db, [], rfl, by simp, rfl, by intro q hq2; cases hq2⟩
  | cons v vs ih =>
    intro db qitems h
    unfold parseItems at h
    cases hv : parseQuizItem v with
    | none =>
      rw [hv] at h
      cases h
    | some i =>
      rw [hv] at h
      cases hvs : parseItems vs with
      | none =>
        rw [hvs] at h
        cases h
      | some is =>
        rw [hvs] at h
        have hq : qitems = i :: is := (Option.some_inj.mp h).symm
        subst hq
        obtain ⟨db2, newRows, h1, h2, h3, h4⟩ :=
          ih (QuizQuestionsRepository.create_question db
            (questionParamsOf pyStr i qsid)) is hvs
        refine ⟨db2,
          { id := db.nextQuestionId
            question_number := i.question_number
            difficulty := i.difficulty
            question_type := i.question_type
            question_text := i.question_text
            options := pyStrOpt pyStr i.options
            expected_answer := i.expected_answer
            explanation := i.explanation
            quiz_session_id := qsid } :: newRows, ?_, ?_, ?_, ?_⟩
        · unfold insertQuestions
          rw [hv]
          exact h1
        · rw [h2]
          simp only [QuizQuestionsRepository.create_question, questionParamsOf,
            List.append_assoc, List.cons_append, List.nil_append]
        · rw [List.map_cons, h3]
          rfl
        · intro q hq2
          rw [List.mem_cons] at hq2
          rcases hq2 with rfl | hq2
          · rfl
          · exact h4 q hq2

theorem idleBranch_quiz_start (loads : String → Option JsonVal)
    (pyStr : JsonVal → String) (llmReply : String) (req : ChatRequest)
    (s cl : Option String) (db : DB) (fs : List (String × JsonVal))
    (items : List JsonVal)
    (hparse : loads llmReply = some (.obj fs))
    (hwq : pyEqTrue (jget fs "wants_quiz") = true)
    (hquiz : jget fs "quiz" = some (.arr items)) :
    idleBranch loads pyStr llmReply req s cl db =
      match insertQuestions pyStr
        (ConversationMemoryRawRepository_rce.update_user_evaluation_and_quiz_session_by_session_id
          (ConversationMemoryRawRepository_rce.update_quiz_active_status
            (QuizSessionRepository.create_quiz_session db).2 req.session_id
            true)
          req.session_id "Progress"
          (some (QuizSessionRepository.create_quiz_session db).1) false)
        (some (QuizSessionRepository.create_quiz_session db).1) items with
      | .error dbe => .error (.other, dbe, [])
      | .ok db5 =>
        .ok (jget fs "answer", db5,
          [idleTask req s cl (jget fs "answer") (jget fs "wants_quiz")
            (some (QuizSessionRepository.create_quiz_session db).1)]) := by
  unfold idleBranch
  rw [hparse]
  simp only [hwq, eq_self_iff_true, if_true, hquiz]

/-- Claim C7 is false on the code: at this concrete quiz-start request whose
LLM reply carries a single question numbered 3, a quiz session (id 7) is
created with exactly one question row, not five. -/
theorem c7_counterexample :
    (chat (loadsFix replyQuiz1) predictFix encodeFix pyStrFix "llm-reply"
      (reqWidget "quiz me") dbIdle).db.quiz_sessions = [7] ∧
    ((chat (loadsFix replyQuiz1) predictFix encodeFix pyStrFix "llm-reply"
      (reqWidget "quiz me") dbIdle).db.quiz_questions.filter
      (fun q => q.quiz_session_id == some 7)).map
      (fun q => q.question_number) = [3] ∧
    ((chat (loadsFix replyQuiz1) predictFix encodeFix pyStrFix "llm-reply"
      (reqWidget "quiz me") dbIdle).db.quiz_questions.filter
      (fun q => q.quiz_session_id == some 7)).length ≠ 5 := by
  refine ⟨rfl, rfl, ?_⟩
  intro h
  rw [show ((chat (loadsFix replyQuiz1) predictFix encodeFix pyStrFix
    "llm-reply" (reqWidget "quiz me") dbIdle).db.quiz_questions.filter
    (fun q => q.quiz_session_id == some 7)).length = 1 from rfl] at h
  exact absurd h (by decide)

/-- Claim C7 (amended): the quiz-start path persists exactly one
QuizQuestion row per element of the LLM reply's quiz array, preserving the
question numbers; in particular, when the reply's quiz array parses to
exactly 5 items numbered 1..5 and the fresh quiz session id is unused, the
rows stored for that quiz session are exactly 5 with question_number
covering 1..5 exactly once. -/
theorem c7_quiz_question_persistence (loads : String → Option JsonVal)
    (predict : String → List (String × Rat)) (encode : String → String)
    (pyStr : JsonVal → String) (llmReply : String) (req : ChatRequest)
    (db : DB) (user_record : ConvRow) (rest : List ConvRow)
    (fs : List (String × JsonVal)) (items : List JsonVal)
    (qitems : List QuizItem)
    (hdb : hasDbContent req = true)
    (hg : ConversationMemoryRawRepository_rce.get_by_session_id db
      req.session_id 1 0 = user_record :: rest)
    (hqa : truthyOptBool user_record.quiz_active = false)
    (hparse : loads llmReply = some (.obj fs))
    (hwq : pyEqTrue (jget fs "wants_quiz") = true)
    (hquiz : jget fs "quiz" = some (.arr items))
    (hitems : parseItems items = some qitems)
    (hnums : qitems.map (fun i => i.question_number) = [1, 2, 3, 4, 5])
    (hfresh : ∀ q ∈ db.quiz_questions,
      q.quiz_session_id ≠ some db.nextQuizSessionId) :
    ((chat loads predict encode pyStr llmReply req
      db).db.quiz_questions.filter
      (fun q => q.quiz_session_id == some db.nextQuizSessionId)).map
      (fun q => q.question_number) = [1, 2, 3, 4, 5] := by
  have hchar := chatBody_existing_session loads predict encode pyStr llmReply
    req db user_record rest hdb hg
  rw [if_neg (by rw [hqa]; exact Bool.false_ne_true)] at hchar
  rw [idleBranch_quiz_start loads pyStr llmReply req _ _ db fs items hparse
    hwq hquiz] at hchar
  have hc1 : (QuizSessionRepository.create_quiz_session db).1 =
      db.nextQuizSessionId := rfl
  rw [hc1] at hchar
  have hqq :
      (ConversationMemoryRawRepository_rce.update_user_evaluation_and_quiz_session_by_session_id
        (ConversationMemoryRawRepository_rce.update_quiz_active_status
          (QuizSessionRepository.create_quiz_session db).2 req.session_id
          true)
        req.session_id "Progress" (some db.nextQuizSessionId)
        false).quiz_questions = db.quiz_questions := by
    rw [update_ueq_quiz_questions, update_qas_quiz_questions]
    rfl
  obtain ⟨db2, newRows, h1, h2, h3, h4⟩ := insertQuestions_ok pyStr
    (some db.nextQuizSessionId) items
    (ConversationMemoryRawRepository_rce.update_user_evaluation_and_quiz_session_by_session_id
      (ConversationMemoryRawRepository_rce.update_quiz_active_status
        (QuizSessionRepository.create_quiz_session db).2 req.session_id true)
      req.session_id "Progress" (some db.nextQuizSessionId) false)
    qitems hitems
  rw [h1] at hchar
  have hchar2 : chatBody loads predict encode pyStr llmReply req db =
      .ok (jget fs "answer", db2,
        [idleTask req
          (ConversationMemoryRawRepository_rce.get_latest_summary db
            req.session_id)
          (detect_language predict req.message) (jget fs "answer")
          (jget fs "wants_quiz") (some db.nextQuizSessionId)]) := hchar
  have hcdb : (chat loads predict encode pyStr llmReply req db).db = db2 := by
    unfold chat
    rw [hchar2]
  rw [hcdb, h2, hqq, List.filter_append]
  have hold : db.quiz_questions.filter
      (fun q => q.quiz_session_id == some db.nextQuizSessionId) = [] := by
    rw [List.filter_eq_nil_iff]
    intro q hq hpred
    exact hfresh q hq (beq_iff_eq.mp hpred)
  have hnew : newRows.filter
      (fun q => q.quiz_session_id == some db.nextQuizSessionId) = newRows := by
    rw [List.filter_eq_self]
    intro q hq
    exact beq_iff_eq.mpr (h4 q hq)
  rw [hold, hnew, List.nil_append, h3, hnums]

/-- Witness for C7 (amended) on a five-question reply: the rows stored for
the fresh quiz session are numbered 1..5. -/
theorem c7_witness :
    ((chat (loadsFix replyQuiz5) predictFix encodeFix pyStrFix "llm-reply"
      (reqWidget "quiz me") dbIdle).db.quiz_questions.filter
      (fun q => q.quiz_session_id == some dbIdle.nextQuizSessionId)).map
      (fun q => q.question_number) = [1, 2, 3, 4, 5] :=
  c7_quiz_question_persistence (loadsFix replyQuiz5) predictFix encodeFix
    pyStrFix "llm-reply" (reqWidget "quiz me") dbIdle rowIdle []
    [("answer", .str "Here is your quiz!"), ("wants_quiz", .bool true),
      ("quiz", .arr [quizItemJson 1, quizItemJson 2, quizItemJson 3,
        quizItemJson 4, quizItemJson 5])]
    [quizItemJson 1, quizItemJson 2, quizItemJson 3, quizItemJson 4,
      quizItemJson 5]
    [quizItemParsed 1, quizItemParsed 2, quizItemParsed 3, quizItemParsed 4,
      quizItemParsed 5]
    rfl rfl rfl rfl rfl rfl rfl rfl (by intro q hq; cases hq)

/-! ## Claim C1: quiz-start persistence (code bug) -/

/-- Claim C1 is contradicted by the code at this concrete quiz-start
request (idle session s, five well-formed questions in the reply, empty
legacy conversations table): the handler creates quiz session 7 and
persists its 5 questions, but when it finishes the newest conversations_rce
row of the session has quiz_active true while evaluation is still NULL and
quiz_session_id still NULL — the Progress update's subquery reads the
legacy `conversations` table and matches no row (and had it matched, its
quiz_active parameter, left at the Python default False, would have reset
the flag).  Even after the deferred summarization insert the evaluation is
still NULL, never Progress. -/
theorem c1_quiz_start_state :
    (chat (loadsFix replyQuiz5) predictFix encodeFix pyStrFix "llm-reply"
      (reqWidget "quiz me") dbIdle).db.quiz_sessions = [7] ∧
    ((chat (loadsFix replyQuiz5) predictFix encodeFix pyStrFix "llm-reply"
      (reqWidget "quiz me") dbIdle).db.quiz_questions.filter
      (fun q => q.quiz_session_id == some 7)).length = 5 ∧
    (latest_turn (chat (loadsFix replyQuiz5) predictFix encodeFix pyStrFix
      "llm-reply" (reqWidget "quiz me") dbIdle).db.conversations_rce
      (some "s")).map
      (fun r => (r.quiz_active, r.evaluation, r.quiz_session_id)) =
      some (some true, none, none) ∧
    (latest_turn (runTasks sumOfFix embOfFix
      (chat (loadsFix replyQuiz5) predictFix encodeFix pyStrFix "llm-reply"
        (reqWidget "quiz me") dbIdle).db
      (chat (loadsFix replyQuiz5) predictFix encodeFix pyStrFix "llm-reply"
        (reqWidget "quiz me") dbIdle).tasks).conversations_rce
      (some "s")).map
      (fun r => (r.quiz_active, r.evaluation, r.quiz_session_id)) =
      some (some true, none, some 7) :=
  ⟨rfl, rfl, rfl, rfl⟩

/-! ## Claim C10: greeting openers stored without a language -/

theorem chat_db_eq (loads : String → Option JsonVal)
    (predict : String → List (String × Rat)) (encode : String → String)
    (pyStr : JsonVal → String) (llmReply : String) (req : ChatRequest)
    (db : DB) :
    (chat loads predict encode pyStr llmReply req db).db =
      dbOf (chatBody loads predict encode pyStr llmReply req db) := by
  unfold chat dbOf
  cases h : chatBody loads predict encode pyStr llmReply req db <;> rfl

theorem insertQuestions_conversations (pyStr : JsonVal → String)
    (qsid : Option Nat) : ∀ (items : List JsonVal) (db : DB),
    (match insertQuestions pyStr db qsid items with
      | .ok d => d.conversations_rce
      | .error d => d.conversations_rce) = db.conversations_rce := by
  intro items
  induction items with
  | nil => intro db; rfl
  | cons v vs ih =>
    intro db
    unfold insertQuestions
    cases hv : parseQuizItem v with
    | none => rfl
    | some i => exact ih _

theorem insertQuestions_conv_error (pyStr : JsonVal → String)
    (qsid : Option Nat) (items : List JsonVal) (db d : DB)
    (h : insertQuestions pyStr db qsid items = .error d) :
    d.conversations_rce = db.conversations_rce := by
  have hconv := insertQuestions_conversations pyStr qsid items db
  rw [h] at hconv
  exact hconv

theorem insertQuestions_conv_ok (pyStr : JsonVal → String)
    (qsid : Option Nat) (items : List JsonVal) (db d : DB)
    (h : insertQuestions pyStr db qsid items = .ok d) :
    d.conversations_rce = db.conversations_rce := by
  have hconv := insertQuestions_conversations pyStr qsid items db
  rw [h] at hconv
  exact hconv

theorem idleBranch_dbOf_row (loads : String → Option JsonVal)
    (pyStr : JsonVal → String) (llmReply : String) (req : ChatRequest)
    (s cl : Option String) (db : DB) (x : ConvRow)
    (hx : x ∈ db.conversations_rce) :
    ∃ y ∈ (dbOf (idleBranch loads pyStr llmReply req s cl
        db)).conversations_rce,
      y.message = x.message ∧ y.message_from = x.message_from ∧
        y.current_language = x.current_language := by
  cases hl : loads llmReply with
  | none =>
    have he : idleBranch loads pyStr llmReply req s cl db =
        .error (.httpException 500, db, []) := by
      unfold idleBranch
      rw [hl]
    rw [he]
    exact ⟨x, hx, rfl, rfl, rfl⟩
  | some j =>
    cases j with
    | obj fs =>
      by_cases hwq : pyEqTrue (jget fs "wants_quiz") = true
      · cases hq : jget fs "quiz" with
        | none =>
          have he : idleBranch loads pyStr llmReply req s cl db =
              .error (.other,
                (QuizSessionRepository.create_quiz_session db).2, []) := by
            unfold idleBranch
            rw [hl]
            simp only [hwq, eq_self_iff_true, if_true, hq]
          rw [he]
          exact ⟨x, hx, rfl, rfl, rfl⟩
        | some qv =>
          cases qv with
          | arr items =>
            have he := idleBranch_quiz_start loads pyStr llmReply req s cl db
              fs items hl hwq hq
            rw [he]
            have hx1 : x ∈ (QuizSessionRepository.create_quiz_session
                db).2.conversations_rce := hx
            obtain ⟨y1, hy1, e1, e2, e3⟩ := update_qas_rows_to
              (QuizSessionRepository.create_quiz_session db).2 req.session_id
              true x hx1
            obtain ⟨y2, hy2, f1, f2, f3⟩ := update_ueq_rows_to
              (ConversationMemoryRawRepository_rce.update_quiz_active_status
                (QuizSessionRepository.create_quiz_session db).2
                req.session_id true)
              req.session_id "Progress"
              (some (QuizSessionRepository.create_quiz_session db).1) false
              y1 hy1
            refine ⟨y2, ?_, f1.trans e1, f2.trans e2, f3.trans e3⟩
            cases hins : insertQuestions pyStr
                (ConversationMemoryRawRepository_rce.update_user_evaluation_and_quiz_session_by_session_id
                  (ConversationMemoryRawRepository_rce.update_quiz_active_status
                    (QuizSessionRepository.create_quiz_session db).2
                    req.session_id true)
                  req.session_id "Progress"
                  (some (QuizSessionRepository.create_quiz_session db).1)
                  false)
                (some (QuizSessionRepository.create_quiz_session db).1) items
                with
            | error dbe =>
              show y2 ∈ dbe.conversations_rce
              rw [insertQuestions_conv_error pyStr
                (some (QuizSessionRepository.create_quiz_session db).1) items
                _ dbe hins]
              exact hy2
            | ok db5 =>
              show y2 ∈ db5.conversations_rce
              rw [insertQuestions_conv_ok pyStr
                (some (QuizSessionRepository.create_quiz_session db).1) items
                _ db5 hins]
              exact hy2
          | null =>
            have he : idleBranch loads pyStr llmReply req s cl db =
                .error (.other,
                  (QuizSessionRepository.create_quiz_session db).2, []) := by
              unfold idleBranch
              rw [hl]
              simp only [hwq, eq_self_iff_true, if_true, hq]
            rw [he]
            exact ⟨x, hx, rfl, rfl, rfl⟩
          | bool b =>
            have he : idleBranch loads pyStr llmReply req s cl db =
                .error (.other,
                  (QuizSessionRepository.create_quiz_session db).2, []) := by
              unfold idleBranch
              rw [hl]
              simp only [hwq, eq_self_iff_true, if_true, hq]
            rw [he]
            exact ⟨x, hx, rfl, rfl, rfl⟩
          | num n =>
            have he : idleBranch loads pyStr llmReply req s cl db =
                .error (.other,
                  (QuizSessionRepository.create_quiz_session db).2, []) := by
              unfold idleBranch
              rw [hl]
              simp only [hwq, eq_self_iff_true, if_true, hq]
            rw [he]
            exact ⟨x, hx, rfl, rfl, rfl⟩
          | str s2 =>
            have he : idleBranch loads pyStr llmReply req s cl db =
                .error (.other,
                  (QuizSessionRepository.create_quiz_session db).2, []) := by
              unfold idleBranch
              rw [hl]
              simp only [hwq, eq_self_iff_true, if_true, hq]
            rw [he]
            exact ⟨x, hx, rfl, rfl, rfl⟩
          | obj fs2 =>
            have he : idleBranch loads pyStr llmReply req s cl db =
                .error (.other,
                  (QuizSessionRepository.create_quiz_session db).2, []) := by
              unfold idleBranch
              rw [hl]
              simp only [hwq, eq_self_iff_true, if_true, hq]
            rw [he]
            exact ⟨x, hx, rfl, rfl, rfl⟩
      · have hwq2 : pyEqTrue (jget fs "wants_quiz") = false :=
          eq_false_of_ne_true hwq
        have he : idleBranch loads pyStr llmReply req s cl db =
            .ok (jget fs "answer", db,
              [idleTask req s cl (jget fs "answer") (jget fs "wants_quiz")
                none]) := by
          unfold idleBranch
          rw [hl]
          simp only [hwq2, Bool.false_eq_true, if_false]
        rw [he]
        exact ⟨x, hx, rfl, rfl, rfl⟩
    | null =>
      have he : idleBranch loads pyStr llmReply req s cl db =
          .error (.other, db, []) := by
        unfold idleBranch
        rw [hl]
      rw [he]
      exact ⟨x, hx, rfl, rfl, rfl⟩
    | bool b =>
      have he : idleBranch loads pyStr llmReply req s cl db =
          .error (.other, db, []) := by
        unfold idleBranch
        rw [hl]
      rw [he]
      exact ⟨x, hx, rfl, rfl, rfl⟩
    | num n =>
      have he : idleBranch loads pyStr llmReply req s cl db =
          .error (.other, db, []) := by
        unfold idleBranch
        rw [hl]
      rw [he]
      exact ⟨x, hx, rfl, rfl, rfl⟩
    | str s2 =>
      have he : idleBranch loads pyStr llmReply req s cl db =
          .error (.other, db, []) := by
        unfold idleBranch
        rw [hl]
      rw [he]
      exact ⟨x, hx, rfl, rfl, rfl⟩
    | arr xs =>
      have he : idleBranch loads pyStr llmReply req s cl db =
          .error (.other, db, []) := by
        unfold idleBranch
        rw [hl]
      rw [he]
      exact ⟨x, hx, rfl, rfl, rfl⟩

/-- Claim C10: a message that strips and lowercases to hi, hello or yes
makes detect_language return no language, and the conversation turn created
for such an opener on a brand-new session is stored with a null
current_language. -/
theorem c10_opener_null_language (loads : String → Option JsonVal)
    (predict : String → List (String × Rat)) (encode : String → String)
    (pyStr : JsonVal → String) (llmReply : String) (req : ChatRequest)
    (db : DB)
    (hmsg : pyLower (pyStrip req.message) = "hi" ∨
      pyLower (pyStrip req.message) = "hello" ∨
      pyLower (pyStrip req.message) = "yes")
    (hdb : hasDbContent req = true)
    (hfresh : ConversationMemoryRawRepository_rce.get_by_session_id db
      req.session_id 1 0 = []) :
    detect_language predict req.message = none ∧
    ∃ y ∈ (chat loads predict encode pyStr llmReply req
        db).db.conversations_rce,
      y.message = req.message ∧ y.message_from = "user" ∧
        y.current_language = none := by
  have hdet : detect_language predict req.message = none := by
    unfold detect_language
    exact if_pos hmsg
  refine ⟨hdet, ?_⟩
  have hchar := chatBody_fresh_session loads predict encode pyStr llmReply
    req db hdb hfresh
  have hx : (ConversationMemoryRawRepository_rce.create db
      (firstTurnParams predict encode req)).1 ∈
      (ConversationMemoryRawRepository_rce.create db
        (firstTurnParams predict encode req)).2.conversations_rce := by
    rw [show (ConversationMemoryRawRepository_rce.create db
      (firstTurnParams predict encode req)).2.conversations_rce =
      db.conversations_rce ++ [(ConversationMemoryRawRepository_rce.create db
        (firstTurnParams predict encode req)).1] from rfl]
    exact List.mem_append_right _ (List.mem_cons_self _ _)
  obtain ⟨y, hy, h1, h2, h3⟩ := idleBranch_dbOf_row loads pyStr llmReply req
    none (detect_language predict req.message) _ _ hx
  refine ⟨y, ?_, h1, h2, h3.trans hdet⟩
  rw [chat_db_eq, hchar]
  exact hy

/-- Witness for C10: the greeting opener on a fresh session is stored with
no language. -/
theorem c10_witness :
    detect_language predictFix "  Hi " = none ∧
    ∃ y ∈ (chat loadsNone predictFix encodeFix pyStrFix "anything"
        (reqWidget "  Hi ") dbEmpty).db.conversations_rce,
      y.message = "  Hi " ∧ y.message_from = "user" ∧
        y.current_language = none :=
  c10_opener_null_language loadsNone predictFix encodeFix pyStrFix "anything"
    (reqWidget "  Hi ") dbEmpty (Or.inl rfl) rfl rfl

/-! ## Claim C8: latest passed quiz session lookup -/

/-- Claim C8: get_latest_quiz_session_id returns a quiz_session_id only if
some conversation turn of the session has evaluation passed (and then it is
the stored quiz_session_id of such a turn), and returns none when no such
turn exists. -/
theorem c8_latest_quiz_session_id (db : DB) (sid : Option String) :
    (∀ q,
      ConversationMemoryRawRepository_rce.get_latest_quiz_session_id db sid =
        some q →
      ∃ r, r ∈ db.conversations_rce ∧ matchesSid r.session_id sid = true ∧
        r.evaluation = some "passed" ∧ r.quiz_session_id = some q) ∧
    ((∀ r, r ∈ db.conversations_rce →
        ¬(matchesSid r.session_id sid = true ∧ r.evaluation = some "passed")) →
      ConversationMemoryRawRepository_rce.get_latest_quiz_session_id db sid =
        none) := by
  have heq : ConversationMemoryRawRepository_rce.get_latest_quiz_session_id
      db sid =
      match (sortByLe tsDesc (db.conversations_rce.filter (fun r =>
        matchesSid r.session_id sid &&
          (r.evaluation == some "passed")))).head? with
      | some r => r.quiz_session_id
      | none => none := rfl
  constructor
  · intro q h
    rw [heq] at h
    cases hs : (sortByLe tsDesc (db.conversations_rce.filter (fun r =>
        matchesSid r.session_id sid && (r.evaluation == some "passed")))).head?
        with
    | none =>
      rw [hs] at h
      simp at h
    | some r =>
      rw [hs] at h
      have hr : r ∈ sortByLe tsDesc (db.conversations_rce.filter (fun rr =>
          matchesSid rr.session_id sid && (rr.evaluation == some "passed"))) :=
        List.mem_of_mem_head? (by rw [hs]; rfl)
      rw [mem_sortByLe] at hr
      rcases List.mem_filter.mp hr with ⟨hmem, hpred⟩
      rw [Bool.and_eq_true] at hpred
      exact ⟨r, hmem, hpred.1, beq_iff_eq.mp hpred.2, h⟩
  · intro hall
    have hfil : db.conversations_rce.filter (fun r =>
        matchesSid r.session_id sid && (r.evaluation == some "passed")) = [] := by
      rw [List.filter_eq_nil_iff]
      intro r hr
      intro hpred
      rw [Bool.and_eq_true] at hpred
      exact hall r hr ⟨hpred.1, beq_iff_eq.mp hpred.2⟩
    rw [heq, hfil]
    rfl

/-- Witness for C8: a database whose only turn of session s passed quiz 7
yields that quiz session; the idle database (no passed turn) yields none. -/
theorem c8_witness :
    (∃ r, r ∈ dbPassed.conversations_rce ∧
      matchesSid r.session_id (some "s") = true ∧
      r.evaluation = some "passed" ∧ r.quiz_session_id = some 7) ∧
    ConversationMemoryRawRepository_rce.get_latest_quiz_session_id dbIdle
      (some "s") = none :=
  ⟨(c8_latest_quiz_session_id dbPassed (some "s")).1 7 rfl,
    (c8_latest_quiz_session_id dbIdle (some "s")).2 (by decide)⟩

/-! ## Claim C9: similarity search -/

/-- Claim C9: find_similar_conversations returns at most 5 rows, each
returned row is a stored row of the session with a non-null embedding, the
rows are ordered by ascending distance to the query embedding, and the
result is empty when no row matches the scope. -/
theorem c9_find_similar_conversations (dist : String → String → Rat)
    (db : DB) (sid : Option String) (emb : String) :
    (ConversationMemoryRawRepository_rce.find_similar_conversations dist db
      sid emb 5).length ≤ 5 ∧
    (∀ r,
      r ∈ ConversationMemoryRawRepository_rce.find_similar_conversations dist
        db sid emb 5 →
      r ∈ db.conversations_rce ∧ matchesSid r.session_id sid = true ∧
        r.embedding.isSome = true) ∧
    (ConversationMemoryRawRepository_rce.find_similar_conversations dist db
      sid emb 5).Pairwise (fun a b =>
        ConversationMemoryRawRepository_rce.distTo dist emb a ≤
          ConversationMemoryRawRepository_rce.distTo dist emb b) ∧
    ((∀ r, r ∈ db.conversations_rce →
        ¬(matchesSid r.session_id sid = true ∧ r.embedding.isSome = true)) →
      ConversationMemoryRawRepository_rce.find_similar_conversations dist db
        sid emb 5 = []) := by
  unfold ConversationMemoryRawRepository_rce.find_similar_conversations
  refine ⟨List.length_take_le 5 _, ?_, ?_, ?_⟩
  · intro r hr
    have hr2 := List.mem_of_mem_take hr
    rw [mem_sortByLe] at hr2
    rcases List.mem_filter.mp hr2 with ⟨hmem, hpred⟩
    rw [Bool.and_eq_true] at hpred
    exact ⟨hmem, hpred.1, hpred.2⟩
  · have hsorted := sorted_sortByLe
      (fun a b => decide (ConversationMemoryRawRepository_rce.distTo dist emb a ≤
        ConversationMemoryRawRepository_rce.distTo dist emb b))
      (fun a b => by
        rcases le_total (ConversationMemoryRawRepository_rce.distTo dist emb a)
            (ConversationMemoryRawRepository_rce.distTo dist emb b) with h | h
        · exact Or.inl (decide_eq_true h)
        · exact Or.inr (decide_eq_true h))
      (fun a b c h1 h2 => decide_eq_true
        (le_trans (of_decide_eq_true h1) (of_decide_eq_true h2)))
      (db.conversations_rce.filter (fun r =>
        matchesSid r.session_id sid && r.embedding.isSome))
    have htake := hsorted.sublist (List.take_sublist 5 _)
    exact htake.imp (fun h => of_decide_eq_true h)
  · intro hall
    have hfil : db.conversations_rce.filter (fun r =>
        matchesSid r.session_id sid && r.embedding.isSome) = [] := by
      rw [List.filter_eq_nil_iff]
      intro r hr hpred
      rw [Bool.and_eq_true] at hpred
      exact hall r hr ⟨hpred.1, hpred.2⟩
    rw [hfil]
    rfl

/-- Witness for C9: on the empty database the search returns the empty list
(scope hypothesis discharged), and on the idle database at most 5 rows. -/
theorem c9_witness :
    ConversationMemoryRawRepository_rce.find_similar_conversations distFix
      dbEmpty (some "s") "[0.5,0.5]" 5 = [] ∧
    (ConversationMemoryRawRepository_rce.find_similar_conversations distFix
      dbIdle (some "s") "[0.5,0.5]" 5).length ≤ 5 :=
  ⟨(c9_find_similar_conversations distFix dbEmpty (some "s")
      "[0.5,0.5]").2.2.2 (by intro r hr; cases hr),
    (c9_find_similar_conversations distFix dbIdle (some "s") "[0.5,0.5]").1⟩

end CanvasTutor
